import Mathlib

/-!
Verification of the whisper transcription server
(src/whisper_server/whisper_server.py) against its specification.

The two source functions, `download_youtube_audio` (lines 17-49) and the
endpoint handler `transcribe_youtube` (lines 51-86), are embedded shallowly.
External capabilities (yt-dlp retrieval, the loaded recognition model, the
outcomes of tempfile naming and of the temporary-file write) are parameters
gathered in an environment record `Env`; the filesystem is an explicit
association list from absolute path to byte content, threaded through the
functions.  Python exceptions are embedded as `Except String`, carrying the
`str(e)` message.  The handler additionally produces a list of `Event`s that
records, in source order, the observable interactions of one call: creation
of the temporary audio file, the single call into the recognition model with
its beam size, the materialization of the lazy segment sequence, and the
unlink of the temporary file.
-/

namespace WhisperServer

/-- Byte content of a file; Python `bytes` embedded as a list of byte values. -/
abbrev Bytes := List Nat

/-- Filesystem state: association list from absolute path to file content.
The first entry for a path is its current content (a later write shadows an
earlier one by consing in front). -/
abbrev FS := List (String × Bytes)

/-- Write a file: the new binding shadows any earlier binding for the path. -/
def fsWrite (fs : FS) (path : String) (data : Bytes) : FS :=
  (path, data) :: fs

/-- Read the current content of a path, `none` when the file does not exist. -/
def fsRead : FS → String → Option Bytes
  | [], _ => none
  | (p, d) :: fs, q => if p = q then some d else fsRead fs q

/-- Delete a single file (Python `os.unlink`). -/
def fsUnlink (fs : FS) (path : String) : FS :=
  fs.filter (fun e => !(e.1 == path))

/-- Boolean test that `pre` is a string beginning of `s`, on the character
lists of the strings.  Used both for directory scoping (a path lies under a
directory) and for checking error-message beginnings. -/
def strIsPre (pre s : String) : Bool :=
  pre.data.isPrefixOf s.data

/-- Remove a whole directory tree: drops every file whose path lies under
`dir`.  Mirrors the cleanup that `tempfile.TemporaryDirectory` performs when
the `with` block exits, on the normal and on the exceptional path alike. -/
def fsRemoveTree (fs : FS) (dir : String) : FS :=
  fs.filter (fun e => !(strIsPre dir e.1))

/-- One segment object yielded by the recognition capability: `start` and
`end` timestamps in seconds and the recognized text.  The Python attribute
named `end` is called `stop` here because `end` is a Lean keyword; timestamps
are carried opaquely (the server copies them without arithmetic), embedded as
rationals. -/
structure Segment where
  start : ℚ
  stop : ℚ
  text : String

/-- Environment of one endpoint call: outcomes of the external capabilities
and the fresh names chosen by `tempfile`.
* `fetchTempDir` — the fresh directory from `tempfile.TemporaryDirectory()`;
* `ydl` — outcome of `ydl.download(...)`: on success the files (name,
  content) that yt-dlp wrote into the temporary directory, on failure the
  message of the raised exception;
* `tmpName` — the fresh name from `tempfile.NamedTemporaryFile(delete=False)`;
* `writeErr` — outcome of `tmp_file.write(audio_data)`: `none` on success,
  otherwise the message of the raised OSError;
* `engine` — the loaded model: `model.transcribe` on the audio bytes at the
  given path, returning the (finite, lazily yielded) segment sequence and
  `info.language`, or raising with a message. -/
structure Env where
  fetchTempDir : String
  ydl : Except String (List (String × Bytes))
  tmpName : String
  writeErr : Option String
  engine : Bytes → Except String (List Segment × String)

/-- JSON-like values, enough for the bodies this server builds. -/
inductive Json where
  | str (s : String)
  | num (q : ℚ)
  | arr (xs : List Json)
  | obj (fields : List (String × Json))

/-- Value returned by the Python handler to the framework: a plain dict on
the success path (line 79), or the pair `({"error": ...}, 500)` built by the
except branch (line 86). -/
inductive PyRet where
  | dict (fields : List (String × Json))
  | pair (fields : List (String × Json)) (code : Nat)

/-- Observable events of one handler call, in source order. -/
inductive Event where
  | tmpCreate (path : String)
  | engineCall (path : String) (beamSize : Nat)
  | materialize (count : Nat)
  | unlink (path : String)

/-- Message of a Python `FileNotFoundError` raised by `open(path)` (the
quotation marks Python places around the path are omitted). -/
def enoentMsg (path : String) : String :=
  "[Errno 2] No such file or directory: " ++ path

/-- The fixed text that `download_youtube_audio` places before the cause when
re-raising (line 49). -/
def failedDownloadMsg (cause : String) : String :=
  "Failed to download YouTube audio: " ++ cause

/-- Path of the wav file the fetcher expects inside the temporary directory
(line 40: `os.path.join(temp_dir, f'{video_id}.wav')`). -/
def wavPath (dir video_id : String) : String :=
  dir ++ "/" ++ video_id ++ ".wav"

/-- Effect of a successful `ydl.download`: each produced file lands inside
the temporary directory under its own name (the `outtmpl` of line 32). -/
def writeFiles (dir : String) (files : List (String × Bytes)) (fs : FS) : FS :=
  files.foldl (fun acc f => fsWrite acc (dir ++ "/" ++ f.1) f.2) fs

/-- Shallow embedding of `download_youtube_audio` (lines 17-49).  Inside a
`try`, a scoped temporary directory is opened, yt-dlp downloads into it, the
wav file named after the video id is read back in full and returned; the
directory is removed when the `with` block exits, on every path; any
exception is caught at line 48 and re-raised with the fixed message of line
49 placed before `str(e)`. -/
def download_youtube_audio (env : Env) (video_id : String) (fs : FS) :
    Except String Bytes × FS :=
  let dir := env.fetchTempDir
  let step : Except String Bytes × FS :=
    match env.ydl with
    | .error e => (.error e, fs)
    | .ok files =>
      let fs1 := writeFiles dir files fs
      match fsRead fs1 (wavPath dir video_id) with
      | some data => (.ok data, fs1)
      | none => (.error (enoentMsg (wavPath dir video_id)), fs1)
  let cleaned := fsRemoveTree step.2 dir
  match step.1 with
  | .ok d => (.ok d, cleaned)
  | .error e => (.error (failedDownloadMsg e), cleaned)

/-- JSON object built for one segment by the comprehension of lines 69-73. -/
def formatSegment (s : Segment) : Json :=
  .obj [("start", .num s.start), ("end", .num s.stop), ("text", .str s.text)]

/-- Shallow embedding of the `transcribe_youtube` handler (lines 51-86).
Inside a `try`: download the audio; open `NamedTemporaryFile(delete=False)`
(which creates the file on disk) and write the audio bytes to it; call
`model.transcribe(tmp_file.name, beam_size=5)` once; materialize the lazy
segment sequence into the list `result`; `os.unlink` the temporary file; and
return the success dict.  Any exception is caught at line 84 and turned into
the return value `({"error": str(e)}, 500)` — note that on those paths the
`os.unlink` of line 76 never runs, and `delete=False` means the `with` exit
does not remove the file either. -/
def transcribe_youtube (env : Env) (video_id : String) (fs : FS) :
    PyRet × FS × List Event :=
  match download_youtube_audio env video_id fs with
  | (.error e, fs1) => (.pair [("error", .str e)] 500, fs1, [])
  | (.ok audio_data, fs1) =>
    match env.writeErr with
    | some e =>
      (.pair [("error", .str e)] 500, fsWrite fs1 env.tmpName [],
        [.tmpCreate env.tmpName])
    | none =>
      let fs2 := fsWrite fs1 env.tmpName audio_data
      match env.engine audio_data with
      | .error e =>
        (.pair [("error", .str e)] 500, fs2,
          [.tmpCreate env.tmpName, .engineCall env.tmpName 5])
      | .ok (segs, language) =>
        let result := segs.map formatSegment
        let fs3 := fsUnlink fs2 env.tmpName
        (.dict [("segments", .arr result), ("language", .str language)], fs3,
          [.tmpCreate env.tmpName, .engineCall env.tmpName 5,
            .materialize segs.length, .unlink env.tmpName])

/-- Boundary semantics of the framework: a handler that returns a plain
Python value (dict or tuple) has it serialized as the JSON body with the
default route status 200; returning a tuple does not set the status code
(spec section 9 records this about the source: returning `(body, 500)` from
an asynchronous handler "does not set the actual HTTP status code"). -/
def httpStatus : PyRet → Nat := fun _ => 200

/-- The key-value fields of the dict the handler built (for the pair return,
the dict part of the tuple). -/
def retFields : PyRet → List (String × Json)
  | .dict f => f
  | .pair f _ => f

/-- The handler return carries the given top-level key. -/
def hasKey (r : PyRet) (k : String) : Bool :=
  (retFields r).any (fun e => e.1 == k)

/-- Success shape: carries `segments` and `language` and no `error` key. -/
def successShaped (r : PyRet) : Bool :=
  hasKey r "segments" && hasKey r "language" && !(hasKey r "error")

/-- Error shape: carries `error` and neither `segments` nor `language`. -/
def errorShaped (r : PyRet) : Bool :=
  hasKey r "error" && !(hasKey r "segments") && !(hasKey r "language")

/-- Beam sizes of the recognition-engine invocations in an event list. -/
def engineBeams (evs : List Event) : List Nat :=
  evs.filterMap (fun e =>
    match e with
    | .engineCall _ b => some b
    | _ => none)

/-- Recognize the materialization event. -/
def isMaterialize : Event → Bool
  | .materialize _ => true
  | _ => false

/-- Recognize the unlink event. -/
def isUnlink : Event → Bool
  | .unlink _ => true
  | _ => false

/-- Index of the first event satisfying the test. -/
def eventIndex (p : Event → Bool) (evs : List Event) : Nat :=
  evs.findIdx p

/-! ### Helper lemmas -/

theorem listIsPrefixOf_append (l t : List Char) : l.isPrefixOf (l ++ t) = true := by
  induction l with
  | nil => simp [List.isPrefixOf]
  | cons a as ih => simp [List.isPrefixOf, ih]

theorem strIsPre_of_data (d s : String) (t : List Char) (h : s.data = d.data ++ t) :
    strIsPre d s = true := by
  simp [strIsPre, h, listIsPrefixOf_append]

theorem strIsPre_under_dir (dir name : String) :
    strIsPre dir (dir ++ "/" ++ name) = true := by
  exact strIsPre_of_data dir _ ("/".data ++ name.data) (by simp)

theorem fsRemoveTree_fsWrite_under (fs : FS) (dir path : String) (d : Bytes)
    (h : strIsPre dir path = true) :
    fsRemoveTree (fsWrite fs path d) dir = fsRemoveTree fs dir := by
  simp [fsRemoveTree, fsWrite, h]

theorem fsRemoveTree_writeFiles (dir : String) (files : List (String × Bytes)) (fs : FS) :
    fsRemoveTree (writeFiles dir files fs) dir = fsRemoveTree fs dir := by
  induction files generalizing fs with
  | nil => rfl
  | cons f rest ih =>
    have hstep : writeFiles dir (f :: rest) fs
        = writeFiles dir rest (fsWrite fs (dir ++ "/" ++ f.1) f.2) := rfl
    rw [hstep, ih, fsRemoveTree_fsWrite_under fs dir _ f.2 (strIsPre_under_dir dir f.1)]

theorem fsRemoveTree_eq_self (fs : FS) (dir : String)
    (h : ∀ e ∈ fs, strIsPre dir e.1 = false) :
    fsRemoveTree fs dir = fs := by
  unfold fsRemoveTree
  exact List.filter_eq_self.mpr (fun e he => by simp [h e he])

/-- On every path, the fetcher leaves the filesystem as it found it, provided
the fresh temporary directory is really fresh (no pre-existing file lies
under it). -/
theorem download_cleanup (env : Env) (vid : String) (fs : FS)
    (h : ∀ e ∈ fs, strIsPre env.fetchTempDir e.1 = false) :
    (download_youtube_audio env vid fs).2 = fs := by
  unfold download_youtube_audio
  cases hy : env.ydl with
  | error e =>
    simp [hy, fsRemoveTree_eq_self fs _ h]
  | ok files =>
    cases hr : fsRead (writeFiles env.fetchTempDir files fs)
        (wavPath env.fetchTempDir vid) with
    | some d =>
      simp [hy, hr, fsRemoveTree_writeFiles, fsRemoveTree_eq_self fs _ h]
    | none =>
      simp [hy, hr, fsRemoveTree_writeFiles, fsRemoveTree_eq_self fs _ h]

/-- Every exception leaving the fetcher carries the fixed re-raise message of
line 49 followed by the cause. -/
theorem download_error_form (env : Env) (vid : String) (fs : FS) (m : String) (fs1 : FS)
    (h : download_youtube_audio env vid fs = (.error m, fs1)) :
    ∃ cause, m = failedDownloadMsg cause := by
  cases hy : env.ydl with
  | error e =>
    simp [download_youtube_audio, hy] at h
    exact ⟨e, h.1.symm⟩
  | ok files =>
    cases hr : fsRead (writeFiles env.fetchTempDir files fs)
        (wavPath env.fetchTempDir vid) with
    | some d => simp [download_youtube_audio, hy, hr] at h
    | none =>
      simp [download_youtube_audio, hy, hr] at h
      exact ⟨enoentMsg (wavPath env.fetchTempDir vid), h.1.symm⟩

/-- Bytes returned by a successful fetch are exactly the full content read
back from the wav file that the retrieval capability produced. -/
theorem download_ok_form (env : Env) (vid : String) (fs : FS) (b : Bytes) (fs1 : FS)
    (h : download_youtube_audio env vid fs = (.ok b, fs1)) :
    ∃ files, env.ydl = .ok files ∧
      fsRead (writeFiles env.fetchTempDir files fs)
        (wavPath env.fetchTempDir vid) = some b := by
  cases hy : env.ydl with
  | error e => simp [download_youtube_audio, hy] at h
  | ok files =>
    cases hr : fsRead (writeFiles env.fetchTempDir files fs)
        (wavPath env.fetchTempDir vid) with
    | some d =>
      simp [download_youtube_audio, hy, hr] at h
      exact ⟨files, rfl, by simp_all⟩
    | none => simp [download_youtube_audio, hy, hr] at h

/-! ### Example environments used by the concrete instantiations -/

/-- Environment of a fully successful call recognizing one segment. -/
def okEnv1 : Env :=
  { fetchTempDir := "/tmp/wd1", ydl := Except.ok [("v1.wav", [7, 8])],
    tmpName := "/tmp/au1.wav", writeErr := none,
    engine := fun _ => Except.ok ([⟨0, 2, "hi"⟩], "en") }

/-- Environment of the silence scenario of the spec: the audio of `abc123`
is retrievable and the engine emits no segments. -/
def silentEnv : Env :=
  { fetchTempDir := "/tmp/wd2", ydl := Except.ok [("abc123.wav", [0, 0, 0])],
    tmpName := "/tmp/au2.wav", writeErr := none,
    engine := fun _ => Except.ok ([], "en") }

/-- Environment where the retrieval capability raises `Video unavailable`. -/
def failEnv : Env :=
  { fetchTempDir := "/tmp/wd3", ydl := Except.error "Video unavailable",
    tmpName := "/tmp/au3.wav", writeErr := none,
    engine := fun _ => Except.error "unused" }

/-! ### Claims -/

/-- Claim C1: the claim says every temporary file created by a call to the
transcription endpoint is deleted before the call returns, even when the
transcription step raises.  The code violates this: `NamedTemporaryFile` is
opened with `delete=False` and the only deletion is the `os.unlink` on the
success path (line 76), so when `model.transcribe` raises, the except branch
returns the error body while the materialized audio file is still on disk.
This theorem evaluates the embedded handler at such a failing input: the
download succeeds, the engine raises, the response is error-shaped, and the
final filesystem still contains the temporary audio file. -/
theorem c1_tmp_file_left_on_engine_failure :
    (transcribe_youtube
        { fetchTempDir := "/tmp/dl", ydl := Except.ok [("vid.wav", [1, 2, 3])],
          tmpName := "/tmp/audio.wav", writeErr := none,
          engine := fun _ => Except.error "transcription boom" }
        "vid" []).2.1
      = [("/tmp/audio.wav", [1, 2, 3])] ∧
    errorShaped
      (transcribe_youtube
          { fetchTempDir := "/tmp/dl", ydl := Except.ok [("vid.wav", [1, 2, 3])],
            tmpName := "/tmp/audio.wav", writeErr := none,
            engine := fun _ => Except.error "transcription boom" }
          "vid" []).1 = true := by
  exact ⟨rfl, rfl⟩

/-- Claim C2: the claim says every failing call carries a non-2xx HTTP
status.  The code violates this: the except branch returns the plain tuple
`({"error": str(e)}, 500)` from an async handler, which the framework
serializes as the body of a response with the default status 200 (the spec
itself records this as a defect of the source).  This theorem evaluates the
embedded handler at the failing input of the spec scenario: identifier
`bad-id` whose retrieval raises `Video unavailable`.  The observed status is
200 while the returned value is the error tuple. -/
theorem c2_failing_call_has_status_200 :
    httpStatus
      (transcribe_youtube
          { fetchTempDir := "/tmp/dl2", ydl := Except.error "Video unavailable",
            tmpName := "/tmp/audio2.wav", writeErr := none,
            engine := fun _ => Except.error "unused" }
          "bad-id" []).1 = 200 ∧
    (transcribe_youtube
        { fetchTempDir := "/tmp/dl2", ydl := Except.error "Video unavailable",
          tmpName := "/tmp/audio2.wav", writeErr := none,
          engine := fun _ => Except.error "unused" }
        "bad-id" []).1
      = PyRet.pair
          [("error", Json.str "Failed to download YouTube audio: Video unavailable")]
          500 := by
  exact ⟨rfl, rfl⟩

/-- Claim C3: on every successful transcription call the lazy segment
sequence produced by the recognition capability is fully materialized into an
ordered finite list before the call returns, while the backing temporary
audio file is still valid.  The response carries the complete mapped list,
one JSON object per engine segment in emission order and of the same length,
and in the event trace the materialization of all segments occurs strictly
before the unlink that invalidates the file. -/
theorem c3_segments_fully_materialized (env : Env) (vid : String) (fs : FS)
    (audio : Bytes) (fs1 : FS) (segs : List Segment) (lang : String)
    (hd : download_youtube_audio env vid fs = (.ok audio, fs1))
    (hw : env.writeErr = none)
    (he : env.engine audio = .ok (segs, lang)) :
    (transcribe_youtube env vid fs).1
      = .dict [("segments", .arr (segs.map formatSegment)), ("language", .str lang)] ∧
    (segs.map formatSegment).length = segs.length ∧
    (transcribe_youtube env vid fs).2.2
      = [.tmpCreate env.tmpName, .engineCall env.tmpName 5,
          .materialize segs.length, .unlink env.tmpName] ∧
    eventIndex isMaterialize (transcribe_youtube env vid fs).2.2
      < eventIndex isUnlink (transcribe_youtube env vid fs).2.2 := by
  have ht : transcribe_youtube env vid fs
      = (.dict [("segments", .arr (segs.map formatSegment)), ("language", .str lang)],
          fsUnlink (fsWrite fs1 env.tmpName audio) env.tmpName,
          [.tmpCreate env.tmpName, .engineCall env.tmpName 5,
            .materialize segs.length, .unlink env.tmpName]) := by
    simp [transcribe_youtube, hd, hw, he]
  refine ⟨by rw [ht], by simp, by rw [ht], ?_⟩
  rw [ht]
  simp [eventIndex, isMaterialize, isUnlink, List.findIdx_cons]

/-- Witness for claim C3 at the concrete successful environment. -/
theorem c3_witness :
    (transcribe_youtube okEnv1 "v1" []).1
      = .dict [("segments", .arr (([⟨0, 2, "hi"⟩] : List Segment).map formatSegment)),
          ("language", .str "en")] ∧
    (([⟨0, 2, "hi"⟩] : List Segment).map formatSegment).length
      = ([⟨0, 2, "hi"⟩] : List Segment).length ∧
    (transcribe_youtube okEnv1 "v1" []).2.2
      = [.tmpCreate okEnv1.tmpName, .engineCall okEnv1.tmpName 5,
          .materialize ([⟨0, 2, "hi"⟩] : List Segment).length, .unlink okEnv1.tmpName] ∧
    eventIndex isMaterialize (transcribe_youtube okEnv1 "v1" []).2.2
      < eventIndex isUnlink (transcribe_youtube okEnv1 "v1" []).2.2 :=
  c3_segments_fully_materialized okEnv1 "v1" [] [7, 8] [] [⟨0, 2, "hi"⟩] "en"
    (by rfl) rfl rfl

/-- Claim C4: whenever retrieval or transcoding fails (the retrieval
capability raises, or the expected wav file is absent), the fetcher raises a
single classified failure whose message is the fixed marker text followed by
the original message, hence contains the original message; and whenever the
fetcher returns bytes, they are exactly the full content read back from the
produced wav file, never a partial sequence. -/
theorem c4_fetch_failure_classified (env : Env) (vid : String) (fs : FS) :
    (∀ m, env.ydl = .error m →
      (download_youtube_audio env vid fs).1 = .error (failedDownloadMsg m) ∧
      ∃ pre post, failedDownloadMsg m = pre ++ m ++ post) ∧
    (∀ files, env.ydl = .ok files →
      fsRead (writeFiles env.fetchTempDir files fs) (wavPath env.fetchTempDir vid) = none →
      (download_youtube_audio env vid fs).1
        = .error (failedDownloadMsg (enoentMsg (wavPath env.fetchTempDir vid)))) ∧
    (∀ b, (download_youtube_audio env vid fs).1 = .ok b →
      ∃ files, env.ydl = .ok files ∧
        fsRead (writeFiles env.fetchTempDir files fs)
          (wavPath env.fetchTempDir vid) = some b) := by
  refine ⟨?_, ?_, ?_⟩
  · intro m hy
    refine ⟨by simp [download_youtube_audio, hy], ?_⟩
    exact ⟨"Failed to download YouTube audio: ", "", by simp [failedDownloadMsg]⟩
  · intro files hy hr
    simp [download_youtube_audio, hy, hr]
  · intro b h1
    exact download_ok_form env vid fs b _ (by rw [← h1])

/-- Witness for claim C4 at the concrete retrieval failure of the spec
scenario: the cause `Video unavailable` is contained in the raised message. -/
theorem c4_witness :
    (download_youtube_audio failEnv "bad-id" []).1
      = .error (failedDownloadMsg "Video unavailable") ∧
    ∃ pre post,
      failedDownloadMsg "Video unavailable" = pre ++ "Video unavailable" ++ post :=
  (c4_fetch_failure_classified failEnv "bad-id" []).1 "Video unavailable" rfl

/-- Claim C5: every call returns an atomic value: either success-shaped
(`segments` and `language`, no `error` key) or error-shaped (`error` key and
neither result field); and a success-shaped return can only arise when every
stage succeeded, in which case it carries the complete result — so every
failure inside fetching, temporary-file handling, or transcription yields the
error shape and no partial fields leak alongside an error. -/
theorem c5_response_atomic (env : Env) (vid : String) (fs : FS) :
    (successShaped (transcribe_youtube env vid fs).1 = true ∨
      errorShaped (transcribe_youtube env vid fs).1 = true) ∧
    (successShaped (transcribe_youtube env vid fs).1 = true →
      ∃ audio fs1 segs lang,
        download_youtube_audio env vid fs = (.ok audio, fs1) ∧
        env.writeErr = none ∧ env.engine audio = .ok (segs, lang) ∧
        (transcribe_youtube env vid fs).1
          = .dict [("segments", .arr (segs.map formatSegment)),
              ("language", .str lang)]) := by
  rcases hd : download_youtube_audio env vid fs with ⟨r, fs1⟩
  cases r with
  | error e =>
    have ht : (transcribe_youtube env vid fs).1 = .pair [("error", .str e)] 500 := by
      simp [transcribe_youtube, hd]
    rw [ht]
    exact ⟨Or.inr rfl, by intro hs; cases hs⟩
  | ok audio =>
    cases hw : env.writeErr with
    | some e =>
      have ht : (transcribe_youtube env vid fs).1 = .pair [("error", .str e)] 500 := by
        simp [transcribe_youtube, hd, hw]
      rw [ht]
      exact ⟨Or.inr rfl, by intro hs; cases hs⟩
    | none =>
      cases he : env.engine audio with
      | error e =>
        have ht : (transcribe_youtube env vid fs).1 = .pair [("error", .str e)] 500 := by
          simp [transcribe_youtube, hd, hw, he]
        rw [ht]
        exact ⟨Or.inr rfl, by intro hs; cases hs⟩
      | ok pr =>
        obtain ⟨segs, lang⟩ := pr
        have ht : (transcribe_youtube env vid fs).1
            = .dict [("segments", .arr (segs.map formatSegment)),
                ("language", .str lang)] := by
          simp [transcribe_youtube, hd, hw, he]
        rw [ht]
        exact ⟨Or.inl rfl, fun _ => ⟨audio, fs1, segs, lang, rfl, rfl, he, rfl⟩⟩

/-- Witness for claim C5 at the concrete successful environment: its
success-shaped return forces every stage to have succeeded. -/
theorem c5_witness :
    ∃ audio fs1 segs lang,
      download_youtube_audio okEnv1 "v1" [] = (.ok audio, fs1) ∧
      okEnv1.writeErr = none ∧ okEnv1.engine audio = .ok (segs, lang) ∧
      (transcribe_youtube okEnv1 "v1" []).1
        = .dict [("segments", .arr (segs.map formatSegment)),
            ("language", .str lang)] :=
  (c5_response_atomic okEnv1 "v1" []).2 (by rfl)

/-- Claim C6: the ephemeral working directory of the fetcher, and every
artifact written into it, are released before the fetch returns, on the
success path and on every failure path (the filesystem is exactly as before
the call, provided the fresh directory was fresh); and on success the
returned bytes are the full content of the produced wav file. -/
theorem c6_working_dir_scoped (env : Env) (vid : String) (fs : FS)
    (hfresh : ∀ e ∈ fs, strIsPre env.fetchTempDir e.1 = false) :
    (download_youtube_audio env vid fs).2 = fs ∧
    (∀ b, (download_youtube_audio env vid fs).1 = .ok b →
      ∃ files, env.ydl = .ok files ∧
        fsRead (writeFiles env.fetchTempDir files fs)
          (wavPath env.fetchTempDir vid) = some b) := by
  refine ⟨download_cleanup env vid fs hfresh, ?_⟩
  intro b h1
  exact download_ok_form env vid fs b _ (by rw [← h1])

/-- Witness for claim C6 at the concrete successful environment: the call
leaves the (empty, hence fresh) filesystem unchanged. -/
theorem c6_witness : (download_youtube_audio okEnv1 "v1" []).2 = [] :=
  (c6_working_dir_scoped okEnv1 "v1" [] (by simp)).1

/-- Claim C7: when the audio is retrievable and the engine emits an empty
segment sequence, the call succeeds: the response is the success shape with
an empty ordered `segments` sequence and a language code, and is not
error-shaped. -/
theorem c7_silent_audio_succeeds (env : Env) (vid : String) (fs : FS)
    (audio : Bytes) (fs1 : FS) (lang : String)
    (hd : download_youtube_audio env vid fs = (.ok audio, fs1))
    (hw : env.writeErr = none)
    (he : env.engine audio = .ok ([], lang)) :
    (transcribe_youtube env vid fs).1
      = .dict [("segments", .arr []), ("language", .str lang)] ∧
    successShaped (transcribe_youtube env vid fs).1 = true ∧
    errorShaped (transcribe_youtube env vid fs).1 = false := by
  have ht : (transcribe_youtube env vid fs).1
      = .dict [("segments", .arr []), ("language", .str lang)] := by
    simp [transcribe_youtube, hd, hw, he]
  exact ⟨ht, by rw [ht]; rfl, by rw [ht]; rfl⟩

/-- Witness for claim C7 at the silence scenario of the spec: identifier
`abc123` resolving to silent audio yields empty segments and a language. -/
theorem c7_witness :
    (transcribe_youtube silentEnv "abc123" []).1
      = .dict [("segments", .arr []), ("language", .str "en")] ∧
    successShaped (transcribe_youtube silentEnv "abc123" []).1 = true ∧
    errorShaped (transcribe_youtube silentEnv "abc123" []).1 = false :=
  c7_silent_audio_succeeds silentEnv "abc123" [] [0, 0, 0] [] "en" (by rfl) rfl rfl

/-- Counterexample for claim C8 as stated: on a call whose download fails,
the recognition engine is invoked zero times, not exactly once. -/
theorem c8_counterexample :
    ¬ (engineBeams (transcribe_youtube failEnv "bad-id" []).2.2).length = 1 := by
  decide

/-- Claim C8 (amended): on every call, all recognition-engine invocations
carry beam size 5 and there is at most one of them; and on every call in
which the audio was fetched and the temporary file written, the engine is
invoked exactly once. -/
theorem c8_engine_called_once_with_beam_5 (env : Env) (vid : String) (fs : FS) :
    (∀ b ∈ engineBeams (transcribe_youtube env vid fs).2.2, b = 5) ∧
    (engineBeams (transcribe_youtube env vid fs).2.2).length ≤ 1 ∧
    ((∃ audio fs1, download_youtube_audio env vid fs = (.ok audio, fs1))
        ∧ env.writeErr = none →
      (engineBeams (transcribe_youtube env vid fs).2.2).length = 1) := by
  rcases hd : download_youtube_audio env vid fs with ⟨r, fs1⟩
  cases r with
  | error e =>
    refine ⟨?_, ?_, ?_⟩ <;> simp [transcribe_youtube, hd, engineBeams]
  | ok audio =>
    cases hw : env.writeErr with
    | some e =>
      refine ⟨?_, ?_, ?_⟩ <;> simp [transcribe_youtube, hd, hw, engineBeams]
    | none =>
      cases he : env.engine audio with
      | error e =>
        refine ⟨?_, ?_, ?_⟩ <;> simp [transcribe_youtube, hd, hw, he, engineBeams]
      | ok pr =>
        obtain ⟨segs, lang⟩ := pr
        refine ⟨?_, ?_, ?_⟩ <;> simp [transcribe_youtube, hd, hw, he, engineBeams]

/-- Witness for claim C8 at the concrete successful environment: the engine
is invoked exactly once. -/
theorem c8_witness :
    (engineBeams (transcribe_youtube okEnv1 "v1" []).2.2).length = 1 :=
  (c8_engine_called_once_with_beam_5 okEnv1 "v1" []).2.2 ⟨⟨[7, 8], [], by rfl⟩, rfl⟩

/-- Claim C10: every failure of the audio fetch surfaces in the error body
as exactly the raised message, which is the fixed marker text
`Failed to download YouTube audio: ` followed by the message of the original
underlying exception, so it begins with that marker. -/
theorem c10_fetch_errors_carry_fixed_marker (env : Env) (vid : String) (fs : FS)
    (m : String) (fs1 : FS)
    (hd : download_youtube_audio env vid fs = (.error m, fs1)) :
    (transcribe_youtube env vid fs).1 = .pair [("error", .str m)] 500 ∧
    ∃ cause, m = "Failed to download YouTube audio: " ++ cause ∧
      strIsPre "Failed to download YouTube audio: " m = true := by
  obtain ⟨cause, hc⟩ := download_error_form env vid fs m fs1 hd
  refine ⟨by simp [transcribe_youtube, hd], cause, hc, ?_⟩
  rw [hc]
  exact strIsPre_of_data _ _ cause.data (by simp [failedDownloadMsg])

/-- Witness for claim C10 at the concrete retrieval failure: the error body
carries the marker followed by `Video unavailable`. -/
theorem c10_witness :
    (transcribe_youtube failEnv "bad-id" []).1
      = .pair [("error",
          .str "Failed to download YouTube audio: Video unavailable")] 500 ∧
    ∃ cause, "Failed to download YouTube audio: Video unavailable"
        = "Failed to download YouTube audio: " ++ cause ∧
      strIsPre "Failed to download YouTube audio: "
        "Failed to download YouTube audio: Video unavailable" = true :=
  c10_fetch_errors_carry_fixed_marker failEnv "bad-id" []
    "Failed to download YouTube audio: Video unavailable" [] (by rfl)

end WhisperServer
